import Mathlib

/-!
# Verification of the Ghost Desktop quick-switcher component

A shallow embedding of `src/app/components/gh-switcher.js`.

The component's externally observable behaviour is modelled as pure
functions: store interactions and parent notifications become event
traces, the DOM ancestor walk becomes recursion over a list of nodes,
and jQuery handler registration becomes a list of (event, handler)
pairs. JavaScript id arguments are `Option String`, where `none`
models `null`/`undefined` and the empty string is falsy.
-/

namespace GhSwitcher

/-- A blog record as held by the external store: `id`, `name`,
`index` (explicit ordering) and `iconColor`. -/
structure Blog where
  id : String
  name : String
  index : Int
  iconColor : Nat
deriving DecidableEq, Repr

/-- JavaScript truthiness of an id argument: `null`/`undefined` and the
empty string are falsy, every other string is truthy. -/
def truthy : Option String → Bool
  | none => false
  | some s => !s.isEmpty

/-- Observable events the component issues against the external store
and the parent UI, in order of occurrence. -/
inductive StoreEvent where
  | findRecord (id : String)
  | randomIconColor (id : String)
  | deleteRecord (id : String)
  | saveRecord (id : String)
  | sendBlogRemoved
  | sendShowEditBlog (blog : Blog)
deriving DecidableEq, Repr

/-- An entry of the quick-switch menu list built by `_setupQuickSwitch`. -/
inductive MenuItem where
  | separator
  | entry (accelerator : String) (label : String)
deriving DecidableEq, Repr

/-- `_setupQuickSwitch`: starting from one separator, push an
accelerator-bound entry for each of the first 8 sorted blogs
(`slice(0, 8)`), with accelerator `CmdOrCtrl+(i+1)` and the blog's
name as label. -/
def setupQuickSwitch (sortedBlogs : List Blog) : List MenuItem :=
  MenuItem.separator ::
    ((sortedBlogs.take 8).enum.map fun p =>
      MenuItem.entry ("CmdOrCtrl+" ++ toString (p.1 + 1)) p.2.name)

/-- `changeBlogColor(id)`: guard on a truthy id, fetch the record, and
when one exists recolor it and save. The result is the trace of
external calls. -/
def changeBlogColor (store : String → Option Blog) : Option String → List StoreEvent
  | none => []
  | some s =>
    if s.isEmpty then []
    else
      match store s with
      | none => [StoreEvent.findRecord s]
      | some _ =>
        [StoreEvent.findRecord s, StoreEvent.randomIconColor s, StoreEvent.saveRecord s]

/-- `removeBlog(id)`: guard on a truthy id, fetch the record, and when
one exists delete it, save, and — only when the save succeeds
(`saveOk`) — notify the parent with `blogRemoved`. -/
def removeBlog (store : String → Option Blog) (saveOk : Bool) :
    Option String → List StoreEvent
  | none => []
  | some s =>
    if s.isEmpty then []
    else
      match store s with
      | none => [StoreEvent.findRecord s]
      | some _ =>
        [StoreEvent.findRecord s, StoreEvent.deleteRecord s, StoreEvent.saveRecord s] ++
          (if saveOk then [StoreEvent.sendBlogRemoved] else [])

/-- `editBlog(id)`: guard on a truthy id, fetch the record, and when one
exists notify the parent with `showEditBlog` and the resolved record. -/
def editBlog (store : String → Option Blog) : Option String → List StoreEvent
  | none => []
  | some s =>
    if s.isEmpty then []
    else
      match store s with
      | none => [StoreEvent.findRecord s]
      | some b => [StoreEvent.findRecord s, StoreEvent.sendShowEditBlog b]

/-- A DOM node as the context-menu handler inspects it: its class list
and its `data-blog` attribute (`none` when absent). -/
structure DomNode where
  classes : List String
  dataBlog : Option String
deriving DecidableEq, Repr

/-- The guard of the ancestor walk:
`node.classList.contains('switch-btn') && node.dataset.blog`
(a truthy, i.e. nonempty, blog-id data attribute). -/
def isSwitchBtn (n : DomNode) : Bool :=
  n.classes.contains "switch-btn" && truthy n.dataBlog

/-- The body of the `contextmenu` handler: walk from the click target up
the ancestor chain (target first); at the first switch button carrying
a blog id, store that id in the `selectedBlog` slot and pop the menu,
then stop. Returns the new slot value and whether the popup was shown. -/
def contextMenuHandler : List DomNode → Option String → Option String × Bool
  | [], sel => (sel, false)
  | n :: rest, sel =>
    if isSwitchBtn n then (n.dataBlog, true)
    else contextMenuHandler rest sel

/-- The `Edit Blog` context-menu action: read the `selectedBlog` slot at
invocation time; skip silently when it is falsy. -/
def fireEditBlog (store : String → Option Blog) (sel : Option String) : List StoreEvent :=
  if truthy sel then editBlog store sel else []

/-- The `Remove Blog` context-menu action: read the `selectedBlog` slot
at invocation time; skip silently when it is falsy. -/
def fireRemoveBlog (store : String → Option Blog) (saveOk : Bool) (sel : Option String) :
    List StoreEvent :=
  if truthy sel then removeBlog store saveOk sel else []

/-- The `New Icon Color` context-menu action: read the `selectedBlog`
slot at invocation time; skip silently when it is falsy. -/
def fireChangeBlogColor (store : String → Option Blog) (sel : Option String) : List StoreEvent :=
  if truthy sel then changeBlogColor store sel else []

/-- The component state that the `toggle` action can observe. -/
structure SwitcherState where
  isMinimized : Bool
  selectedBlog : Option String
  blogs : List Blog
deriving DecidableEq, Repr

/-- The `toggle` action: `this.toggleProperty('isMinimized')`. -/
def toggle (s : SwitcherState) : SwitcherState :=
  { s with isMinimized := !s.isMinimized }

/-- jQuery `.off(event)`: remove every handler registered for `event`
from the root element's handler list. -/
def jqOff (event : String) (hs : List (String × Nat)) : List (String × Nat) :=
  hs.filter fun h => h.1 != event

/-- The binding step of `_setupContextMenu`:
`.off('contextmenu').on('contextmenu', handler)`, where `handlerId`
identifies the freshly built closure of this bind. -/
def setupContextMenu (handlerId : Nat) (hs : List (String × Nat)) : List (String × Nat) :=
  jqOff "contextmenu" hs ++ [("contextmenu", handlerId)]

/-- How many `contextmenu` handlers are attached — the number of popups
a single right-click would trigger. -/
def contextmenuHandlerCount (hs : List (String × Nat)) : Nat :=
  (hs.filter fun h => h.1 == "contextmenu").length

/-- Re-running `_setupContextMenu` once per render: one bind per entry
of `ids`, oldest first. -/
def bindContextMenuTimes (ids : List Nat) (hs : List (String × Nat)) : List (String × Nat) :=
  ids.foldl (fun acc i => setupContextMenu i acc) hs

/-- The sort relation of `sortDefinition: ['index']`: ascending by the
`index` field. -/
def blogLE (a b : Blog) : Prop := a.index ≤ b.index

instance : DecidableRel blogLE := fun a b => inferInstanceAs (Decidable (a.index ≤ b.index))

instance : IsTotal Blog blogLE := ⟨fun a b => Int.le_total a.index b.index⟩

instance : IsTrans Blog blogLE := ⟨fun _ _ _ h h2 => le_trans h h2⟩

/-- `sortedBlogs`: the derived sequence, the collection stably sorted
ascending by `index` (Ember's `computed.sort`). -/
def sortedBlogs (blogs : List Blog) : List Blog := List.insertionSort blogLE blogs

/-- Changing the `index` of the single blog at position `i` to `v`. -/
def setIndexAt (blogs : List Blog) (i : Nat) (v : Int) : List Blog :=
  blogs.enum.map fun p => if p.1 = i then { p.2 with index := v } else p.2

/-- `reorderItems`: assign each blog's `index` field to its 0-based
position in the passed sequence. -/
def reorderItems (blogs : List Blog) : List Blog :=
  blogs.enum.map fun p => { p.2 with index := (p.1 : Int) }


/-- C1: for every sorted blog sequence, `_setupQuickSwitch` produces a
list with exactly one leading separator followed by `min n 8`
accelerator-bound entries; the i-th entry (0-based, i < 8) has
accelerator `CmdOrCtrl+(i+1)` and the name of the i-th sorted blog as
label; fewer than 8 blogs give correspondingly fewer entries with no
padding. -/
theorem setupQuickSwitch_spec (sorted : List Blog) :
    (setupQuickSwitch sorted).length = 1 + min sorted.length 8 ∧
    (setupQuickSwitch sorted).head? = some MenuItem.separator ∧
    ∀ i, i < min sorted.length 8 →
      (setupQuickSwitch sorted)[i + 1]? =
        (sorted[i]?).map fun b =>
          MenuItem.entry ("CmdOrCtrl+" ++ toString (i + 1)) b.name := by
  refine ⟨?_, rfl, fun i hi => ?_⟩
  · simp only [setupQuickSwitch, List.length_cons, List.length_map, List.enum_length,
      List.length_take, Nat.min_comm]
    omega
  · have h8 : i < 8 := lt_of_lt_of_le hi (min_le_right _ _)
    simp only [setupQuickSwitch, List.getElem?_cons_succ, List.getElem?_map,
      List.getElem?_enum, List.getElem?_take, if_pos h8, Option.map_map]
    cases sorted[i]? <;> rfl

theorem setupQuickSwitch_spec_witness :
    (setupQuickSwitch [⟨"1", "One", 0, 0⟩, ⟨"2", "Two", 1, 0⟩])[1]? =
      (([⟨"1", "One", 0, 0⟩, ⟨"2", "Two", 1, 0⟩] : List Blog)[0]?).map
        (fun b => MenuItem.entry ("CmdOrCtrl+" ++ toString (0 + 1)) b.name) :=
  (setupQuickSwitch_spec _).2.2 0 (by decide)

/-- C2: after `reorderItems`, every blog in the sequence has its `index`
field equal to its 0-based position in the sequence, leaving the other
fields unchanged. -/
theorem reorderItems_spec (blogs : List Blog) :
    (reorderItems blogs).length = blogs.length ∧
    ∀ i, i < blogs.length →
      (reorderItems blogs)[i]? =
        (blogs[i]?).map fun b => { b with index := (i : Int) } := by
  refine ⟨by simp [reorderItems], fun i hi => ?_⟩
  simp only [reorderItems, List.getElem?_map, List.getElem?_enum, Option.map_map]
  cases blogs[i]? <;> rfl

theorem reorderItems_spec_witness :
    (reorderItems [⟨"3", "B3", 2, 0⟩, ⟨"1", "B1", 0, 0⟩, ⟨"2", "B2", 1, 0⟩])[0]? =
      (([⟨"3", "B3", 2, 0⟩, ⟨"1", "B1", 0, 0⟩, ⟨"2", "B2", 1, 0⟩] : List Blog)[0]?).map
        (fun b => { b with index := (0 : Int) }) :=
  (reorderItems_spec _).2 0 (by decide)

/-- C3: when the fetch resolves to an existing record, `removeBlog`
deletes, then saves, and only after a successful save emits exactly one
`blogRemoved` notification, in that order; a failed save emits no
notification. -/
theorem removeBlog_spec (store : String → Option Blog) (s : String) (b : Blog)
    (hs : s.isEmpty = false) (hb : store s = some b) :
    removeBlog store true (some s) =
      [StoreEvent.findRecord s, StoreEvent.deleteRecord s, StoreEvent.saveRecord s,
        StoreEvent.sendBlogRemoved] ∧
    removeBlog store false (some s) =
      [StoreEvent.findRecord s, StoreEvent.deleteRecord s, StoreEvent.saveRecord s] := by
  constructor <;> simp [removeBlog, hs, hb]

theorem removeBlog_spec_witness :
    removeBlog (fun t => if t = "b1" then some ⟨"b1", "One", 0, 0⟩ else none) true (some "b1") =
      [StoreEvent.findRecord "b1", StoreEvent.deleteRecord "b1", StoreEvent.saveRecord "b1",
        StoreEvent.sendBlogRemoved] ∧
    removeBlog (fun t => if t = "b1" then some ⟨"b1", "One", 0, 0⟩ else none) false (some "b1") =
      [StoreEvent.findRecord "b1", StoreEvent.deleteRecord "b1", StoreEvent.saveRecord "b1"] :=
  removeBlog_spec _ "b1" ⟨"b1", "One", 0, 0⟩ (by decide) (by simp)

/-- C4: when the fetch yields no record, each of `changeBlogColor`,
`removeBlog` and `editBlog` performs no store mutation (no recolor, no
delete, no save) and sends no parent notification: the trace is the
bare fetch. -/
theorem fetchMiss_noop (store : String → Option Blog) (s : String)
    (hs : s.isEmpty = false) (h : store s = none) :
    changeBlogColor store (some s) = [StoreEvent.findRecord s] ∧
    (∀ saveOk, removeBlog store saveOk (some s) = [StoreEvent.findRecord s]) ∧
    editBlog store (some s) = [StoreEvent.findRecord s] := by
  refine ⟨?_, fun saveOk => ?_, ?_⟩ <;> simp [changeBlogColor, removeBlog, editBlog, hs, h]

theorem fetchMiss_noop_witness :
    changeBlogColor (fun _ => none) (some "ghost") = [StoreEvent.findRecord "ghost"] ∧
    (∀ saveOk, removeBlog (fun _ => none) saveOk (some "ghost") =
      [StoreEvent.findRecord "ghost"]) ∧
    editBlog (fun _ => none) (some "ghost") = [StoreEvent.findRecord "ghost"] :=
  fetchMiss_noop _ "ghost" (by decide) rfl

/-- C5: the `contextmenu` handler walks up the ancestor chain; when some
ancestor (the click target included) is a switch button carrying a blog
id, the nearest such ancestor wins: its id is stored in the slot and
the popup is shown; with no such ancestor, no popup is shown and the
slot is unchanged. -/
theorem contextMenuHandler_spec (chain : List DomNode) (sel : Option String) :
    (∀ n, chain.find? isSwitchBtn = some n →
      contextMenuHandler chain sel = (n.dataBlog, true)) ∧
    (chain.find? isSwitchBtn = none → contextMenuHandler chain sel = (sel, false)) := by
  induction chain with
  | nil => exact ⟨fun n h => by simp at h, fun _ => rfl⟩
  | cons x xs ih =>
    by_cases hx : isSwitchBtn x
    · refine ⟨fun n h => ?_, fun h => ?_⟩
      · rw [List.find?_cons_of_pos _ hx] at h
        cases h
        simp [contextMenuHandler, hx]
      · rw [List.find?_cons_of_pos _ hx] at h
        exact absurd h (by simp)
    · refine ⟨fun n h => ?_, fun h => ?_⟩
      · rw [List.find?_cons_of_neg _ hx] at h
        simpa [contextMenuHandler, hx] using ih.1 n h
      · rw [List.find?_cons_of_neg _ hx] at h
        simpa [contextMenuHandler, hx] using ih.2 h

theorem contextMenuHandler_spec_witness :
    contextMenuHandler [⟨["row"], none⟩, ⟨["switch-btn"], some "b7"⟩] none =
      ((⟨["switch-btn"], some "b7"⟩ : DomNode).dataBlog, true) :=
  (contextMenuHandler_spec _ none).1 ⟨["switch-btn"], some "b7"⟩ (by decide)

/-- C6: each of the three context-menu actions, fired while the
`selectedBlog` slot is unset, is silently skipped: no store call, no
parent notification. -/
theorem contextAction_unset_noop (store : String → Option Blog) (saveOk : Bool) :
    fireEditBlog store none = [] ∧ fireRemoveBlog store saveOk none = [] ∧
    fireChangeBlogColor store none = [] :=
  ⟨rfl, rfl, rfl⟩

/-- C7: `toggle` negates the minimized flag, invoking it twice restores
the original state, and it changes no other component state. -/
theorem toggle_spec (s : SwitcherState) :
    (toggle s).isMinimized = !s.isMinimized ∧
    toggle (toggle s) = s ∧
    (toggle s).selectedBlog = s.selectedBlog ∧
    (toggle s).blogs = s.blogs := by
  refine ⟨rfl, ?_, rfl, rfl⟩
  cases s
  simp [toggle]

theorem contextmenuHandlerCount_setup (i : Nat) (hs : List (String × Nat)) :
    contextmenuHandlerCount (setupContextMenu i hs) = 1 := by
  simp [contextmenuHandlerCount, setupContextMenu, jqOff, List.filter_append,
    List.filter_filter, bne]

/-- C8: running `_setupContextMenu` any positive number of times leaves
exactly one `contextmenu` handler attached, so one right-click after
repeated re-binds triggers at most one popup. -/
theorem setupContextMenu_single (ids : List Nat) (hs : List (String × Nat))
    (h : ids ≠ []) :
    contextmenuHandlerCount (bindContextMenuTimes ids hs) = 1 := by
  induction ids generalizing hs with
  | nil => exact absurd rfl h
  | cons i rest ih =>
    cases rest with
    | nil => simpa [bindContextMenuTimes] using contextmenuHandlerCount_setup i hs
    | cons j rest2 =>
      have : bindContextMenuTimes (i :: j :: rest2) hs =
          bindContextMenuTimes (j :: rest2) (setupContextMenu i hs) := rfl
      rw [this]
      exact ih (setupContextMenu i hs) (by simp)

theorem setupContextMenu_single_witness :
    contextmenuHandlerCount
      (bindContextMenuTimes [0, 1] [("contextmenu", 99), ("click", 5)]) = 1 :=
  setupContextMenu_single [0, 1] _ (by decide)

/-- C9: `sortedBlogs` is always ordered ascending by the `index` field,
and recomputing it after any single blog gets a new `index` again
yields ascending order. -/
theorem sortedBlogs_spec (blogs : List Blog) :
    List.Sorted blogLE (sortedBlogs blogs) ∧
    ∀ i v, List.Sorted blogLE (sortedBlogs (setIndexAt blogs i v)) :=
  ⟨List.sorted_insertionSort blogLE blogs,
    fun i v => List.sorted_insertionSort blogLE (setIndexAt blogs i v)⟩

/-- C10: for every falsy id (null, undefined or the empty string), each
of `changeBlogColor`, `removeBlog` and `editBlog` returns without any
store call at all — not even the fetch — and sends no parent
notification. -/
theorem falsyId_noop (store : String → Option Blog) (saveOk : Bool) (id : Option String)
    (h : truthy id = false) :
    changeBlogColor store id = [] ∧ removeBlog store saveOk id = [] ∧
    editBlog store id = [] := by
  cases id with
  | none => exact ⟨rfl, rfl, rfl⟩
  | some s =>
    simp [truthy] at h
    simp [changeBlogColor, removeBlog, editBlog, h]

theorem falsyId_noop_witness :
    (changeBlogColor (fun _ => none) none = [] ∧
      removeBlog (fun _ => none) true none = [] ∧ editBlog (fun _ => none) none = []) ∧
    (changeBlogColor (fun _ => none) (some "") = [] ∧
      removeBlog (fun _ => none) true (some "") = [] ∧
      editBlog (fun _ => none) (some "") = []) :=
  ⟨falsyId_noop _ true none rfl, falsyId_noop _ true (some "") (by decide)⟩

end GhSwitcher
